import Mathlib

/-!
Shallow embedding of the Datapay SDR ROI calculator.

The repository contains three variants of the savings calculation engine:
* variant A (src/src/app/page.tsx, first document): risk bands, a fixed
  0.70/0.20/0.10 efficiency split, a damped record-keeping term;
* variant B (src/src/app/page.tsx, second document): segment-weighted
  savings with per-segment weights and efficiency/error factors, and the
  exact trigonometric gauge geometry;
* variant C (src/unnamed/part_000): the minimal engine.

Exact rational arithmetic stands in for JavaScript doubles for the engine;
the gauge geometry is embedded over the reals because it uses sine and
cosine.  JavaScript division, which produces NaN on 0/0, is embedded as an
Option-valued operation that returns none when the divisor is zero.
-/

namespace Datapay

/-- JavaScript Math.round on an exact rational: round half toward +∞. -/
def jsRound (x : ℚ) : ℤ := ⌊x + 1 / 2⌋

/-- JavaScript division where a zero divisor yields no finite number
(in the source every zero-divisor case is 0/0, which is NaN). -/
def jsDiv (a b : ℚ) : Option ℚ := if b = 0 then none else some (a / b)

/-! ## Variant A (src/src/app/page.tsx, first document) -/

/-- The three risk-band keys of variant A. -/
inductive RiskBandKey
  | low
  | medium
  | high
deriving DecidableEq

/-- One entry of the RISK_BANDS table (label omitted). -/
structure RiskBand where
  min : ℚ
  max : ℚ
  mid : ℚ

/-- The RISK_BANDS table of variant A. -/
def RISK_BANDS : RiskBandKey → RiskBand
  | .low => ⟨0, 10000, 5000⟩
  | .medium => ⟨10000, 30000, 20000⟩
  | .high => ⟨30000, 100000, 65000⟩

/-- The input snapshot of variant A (employees is not read by the engine). -/
structure InputsA where
  payCycles : ℚ
  avgHoursPerCycle : ℚ
  errorRatePct : ℚ
  hourlyRate : ℚ
  recordKeepingEffPct : ℚ
  riskBand : RiskBandKey
  incidentProbPct : ℚ

/-- One byCategory entry: hours and dollars. -/
structure Category where
  hours : ℚ
  dollars : ℚ

/-- The derived breakdown produced by variant A's useMemo. -/
structure BreakdownA where
  currentAdminHours : ℚ
  currentAdminCost : ℚ
  hoursBackToTeam : ℚ
  efficiencyDollars : ℚ
  manual : Category
  compliance : Category
  errors : Category
  complianceRiskDollars : ℚ
  recordKeepingDollars : ℚ
  totalAnnualSavings : ℚ
  efficiencyPct : ℤ

/-- Variant A's savings calculation (the useMemo body at
src/src/app/page.tsx lines 180-239). -/
def computeA (i : InputsA) : BreakdownA :=
  let currentAdminHours := i.payCycles * i.avgHoursPerCycle
  let currentAdminCost := currentAdminHours * i.hourlyRate
  let hoursBackToTeam := currentAdminHours * (i.errorRatePct / 100)
  let efficiencyDollars := hoursBackToTeam * i.hourlyRate
  let effSplitManual : ℚ := 0.70
  let effSplitCompliance : ℚ := 0.20
  let effSplitErrors : ℚ := 0.10
  let manual : Category :=
    ⟨hoursBackToTeam * effSplitManual, hoursBackToTeam * effSplitManual * i.hourlyRate⟩
  let compliance : Category :=
    ⟨hoursBackToTeam * effSplitCompliance, hoursBackToTeam * effSplitCompliance * i.hourlyRate⟩
  let errors : Category :=
    ⟨hoursBackToTeam * effSplitErrors, hoursBackToTeam * effSplitErrors * i.hourlyRate⟩
  let band := RISK_BANDS i.riskBand
  let complianceRiskDollars := band.mid * i.incidentProbPct / 100
  let RECORD_DAMP : ℚ := 0.6
  let recordKeepingHours := currentAdminHours * (i.recordKeepingEffPct / 100) * RECORD_DAMP
  let recordKeepingDollars := recordKeepingHours * i.hourlyRate
  let totalAnnualSavings := efficiencyDollars + complianceRiskDollars + recordKeepingDollars
  let efficiencyPct := min 100 (jsRound (i.errorRatePct * 25))
  ⟨currentAdminHours, currentAdminCost, hoursBackToTeam, efficiencyDollars,
   manual, compliance, errors, complianceRiskDollars, recordKeepingDollars,
   totalAnnualSavings, efficiencyPct⟩

/-! ## Variant B (src/src/app/page.tsx, second document) -/

/-- The two customer segments. -/
inductive Segment
  | Council
  | Enterprise
deriving DecidableEq

/-- One SAVINGS_WEIGHTS entry. -/
structure SegmentWeights where
  manual : ℚ
  compliance : ℚ
  errors : ℚ

/-- The SAVINGS_WEIGHTS table of variant B. -/
def SAVINGS_WEIGHTS : Segment → SegmentWeights
  | .Council => ⟨0.7, 0.2, 0.1⟩
  | .Enterprise => ⟨0.6, 0.25, 0.15⟩

/-- The penalty bands of variant B. -/
inductive PenaltyBand
  | Low
  | Medium
  | High
deriving DecidableEq

/-- The band range chosen inside variant B's useMemo. -/
def bandRange : PenaltyBand → ℚ × ℚ
  | .High => (30000, 100000)
  | .Medium => (10000, 30000)
  | .Low => (0, 5000)

/-- The midpoint of a penalty band as computed in variant B. -/
def avgPenalty (b : PenaltyBand) : ℚ := ((bandRange b).1 + (bandRange b).2) / 2

/-- The input snapshot of variant B (employees is not read by the engine). -/
structure InputsB where
  segment : Segment
  payCycles : ℚ
  avgHoursPerCycle : ℚ
  errorRate : ℚ
  hourlyRate : ℚ
  recordEff : ℚ
  penaltyBand : PenaltyBand
  incidentProb : ℚ

/-- The derived breakdown produced by variant B's useMemo. -/
structure BreakdownB where
  currentAdminHours : ℚ
  currentAdminCost : ℚ
  manualSavings : ℚ
  complianceSavings : ℚ
  errorSavings : ℚ
  complianceRiskAvoidance : ℚ
  recordSavings : ℚ
  totalAnnualSavings : ℚ
  totalAdminHours : Option ℚ
  efficiencyPercent : Option ℤ

/-- Variant B's segment-weighted savings calculation (the useMemo body at
src/src/app/page.tsx lines 696-764 of the concatenated file). -/
def computeB (i : InputsB) : BreakdownB :=
  let currentAdminHours := i.payCycles * i.avgHoursPerCycle
  let currentAdminCost := currentAdminHours * i.hourlyRate
  let w := SAVINGS_WEIGHTS i.segment
  let efficiencyFactor : ℚ := match i.segment with
    | .Enterprise => 0.8
    | .Council => 0.4
  let errorFactor : ℚ := match i.segment with
    | .Enterprise => 0.8
    | .Council => 1.0
  let manualSavings := currentAdminCost * w.manual * (1 - efficiencyFactor)
  let complianceSavings := currentAdminCost * w.compliance * (1 - efficiencyFactor)
  let errorSavings := currentAdminCost * w.errors * (i.errorRate / 100) * errorFactor
  let complianceRiskAvoidance := avgPenalty i.penaltyBand * i.incidentProb / 100
  let recordSavings := currentAdminCost * i.recordEff / 100
  let totalAnnualSavings :=
    manualSavings + complianceSavings + errorSavings + complianceRiskAvoidance + recordSavings
  let totalAdminHours :=
    jsDiv (manualSavings + complianceSavings + errorSavings) i.hourlyRate
  let efficiencyPercent :=
    (jsDiv (manualSavings + complianceSavings + errorSavings) currentAdminCost).map
      (fun q => min 100 (jsRound (q * 100)))
  ⟨currentAdminHours, currentAdminCost, manualSavings, complianceSavings, errorSavings,
   complianceRiskAvoidance, recordSavings, totalAnnualSavings, totalAdminHours,
   efficiencyPercent⟩

/-! ## Variant C (src/unnamed/part_000) -/

/-- The input snapshot of variant C (employees is not read by the engine). -/
structure InputsC where
  payCycles : ℚ
  avgHoursPerCycle : ℚ
  errorRatePct : ℚ
  hourlyRate : ℚ

/-- The derived breakdown produced by variant C's useMemo. -/
structure BreakdownC where
  currentAdminHours : ℚ
  currentAdminCost : ℚ
  hoursBackToTeam : ℚ
  totalAnnualSavings : ℚ
  efficiencyPct : ℤ

/-- Variant C's savings calculation (src/unnamed/part_000 lines 19-27). -/
def computeC (i : InputsC) : BreakdownC :=
  let currentAdminHours := i.payCycles * i.avgHoursPerCycle
  let currentAdminCost := currentAdminHours * i.hourlyRate
  let hoursBackToTeam := currentAdminHours * (i.errorRatePct / 100)
  let totalAnnualSavings := hoursBackToTeam * i.hourlyRate
  let efficiencyPct := min 100 (jsRound (i.errorRatePct * 25))
  ⟨currentAdminHours, currentAdminCost, hoursBackToTeam, totalAnnualSavings, efficiencyPct⟩

/-! ## Gauge geometry (variant B's Gauge component) -/

/-- The internal clamp of the Gauge component: Math.max(0, Math.min(100, value)). -/
noncomputable def gaugeClamped (value : ℝ) : ℝ := max 0 (min 100 value)

/-- The end angle of the progress arc: π − π·(v/100) for the clamped value v. -/
noncomputable def gaugeEndAngle (value : ℝ) : ℝ :=
  Real.pi - Real.pi * (gaugeClamped value / 100)

/-- The geometric outputs of the Gauge component. -/
structure GaugeGeom where
  endX : ℝ
  endY : ℝ
  largeArcFlag : ℕ
  sweepFlag : ℕ

/-- The Gauge component's arc geometry (src/src/app/page.tsx lines 626-642 of
the concatenated file): semicircle centered at (50, 50) with radius 40. -/
noncomputable def Gauge (value : ℝ) : GaugeGeom :=
  { endX := 50 + 40 * Real.cos (gaugeEndAngle value)
    endY := 50 + 40 * Real.sin (gaugeEndAngle value)
    largeArcFlag := if gaugeClamped value > 50 then 1 else 0
    sweepFlag := 1 }

end Datapay

namespace Datapay

/-! ## Theorems -/

/-- C1: For every input snapshot, totalAnnualSavings equals exactly the sum of
the efficiency time-saved figure, the record-keeping savings figure and the
compliance risk-avoidance figure; in the segment-weighted variant the
efficiency figure is the sum of its manual, compliance and error sub-buckets. -/
theorem totalAnnualSavings_is_sum (i : InputsA) (j : InputsB) :
    (computeA i).totalAnnualSavings
        = (computeA i).efficiencyDollars + (computeA i).recordKeepingDollars
            + (computeA i).complianceRiskDollars
    ∧ (computeB j).totalAnnualSavings
        = ((computeB j).manualSavings + (computeB j).complianceSavings
            + (computeB j).errorSavings)
          + (computeB j).recordSavings + (computeB j).complianceRiskAvoidance := by
  constructor
  · simp only [computeA]
    ring
  · simp only [computeB]
    ring

/-- C9: concrete scenario employees=250, payCycles=26, avgHoursPerCycle=8,
errorRatePct=3, hourlyRate=55: currentAdminHours = 208, currentAdminCost =
11440, hoursBackToTeam = 6.24, base efficiency time-saved dollars = 6.24 × 55
= 343.2, efficiencyPct = 75 (in variant A and in variant C). -/
theorem concrete_scenario :
    (computeA ⟨26, 8, 3, 55, 5.5, .medium, 8⟩).currentAdminHours = 208
    ∧ (computeA ⟨26, 8, 3, 55, 5.5, .medium, 8⟩).currentAdminCost = 11440
    ∧ (computeA ⟨26, 8, 3, 55, 5.5, .medium, 8⟩).currentAdminCost
        = (computeA ⟨26, 8, 3, 55, 5.5, .medium, 8⟩).currentAdminHours * 55
    ∧ (computeA ⟨26, 8, 3, 55, 5.5, .medium, 8⟩).hoursBackToTeam = 6.24
    ∧ (computeA ⟨26, 8, 3, 55, 5.5, .medium, 8⟩).efficiencyDollars = 6.24 * 55
    ∧ (computeA ⟨26, 8, 3, 55, 5.5, .medium, 8⟩).efficiencyPct = 75
    ∧ (computeC ⟨26, 8, 3, 55⟩).currentAdminHours = 208
    ∧ (computeC ⟨26, 8, 3, 55⟩).currentAdminCost = 11440
    ∧ (computeC ⟨26, 8, 3, 55⟩).hoursBackToTeam = 6.24
    ∧ (computeC ⟨26, 8, 3, 55⟩).totalAnnualSavings = 343.2
    ∧ (computeC ⟨26, 8, 3, 55⟩).efficiencyPct = 75 := by
  refine ⟨?_, ?_, ?_, ?_, ?_, ?_, ?_, ?_, ?_, ?_, ?_⟩ <;>
    norm_num [computeA, computeC, jsRound]

/-- C2 counterexample: at hourlyRate = 0 (medium band, incidentProbPct = 8)
complianceRiskDollars and totalAnnualSavings are 1600, not 0, refuting the
claim that every listed cost-denominated output is exactly 0. -/
theorem hourlyRateZero_counterexample :
    (computeA ⟨26, 8, 3, 0, 5.5, .medium, 8⟩).complianceRiskDollars = 1600
    ∧ (computeA ⟨26, 8, 3, 0, 5.5, .medium, 8⟩).complianceRiskDollars ≠ 0
    ∧ (computeA ⟨26, 8, 3, 0, 5.5, .medium, 8⟩).totalAnnualSavings = 1600
    ∧ (computeA ⟨26, 8, 3, 0, 5.5, .medium, 8⟩).totalAnnualSavings ≠ 0 := by
  refine ⟨?_, ?_, ?_, ?_⟩ <;> norm_num [computeA, RISK_BANDS]

/-- C2 amended: hourlyRate = 0 zeroes every output that is multiplied by the
hourly rate (currentAdminCost, efficiencyDollars, the per-category dollar
figures, recordKeepingDollars), while complianceRiskDollars keeps its
band-and-probability value, totalAnnualSavings collapses to exactly
complianceRiskDollars, and currentAdminHours and hoursBackToTeam have the
same values they would have for any other hourlyRate. -/
theorem hourlyRateZero_amended (i : InputsA) (h : i.hourlyRate = 0) :
    (computeA i).currentAdminCost = 0
    ∧ (computeA i).efficiencyDollars = 0
    ∧ (computeA i).manual.dollars = 0
    ∧ (computeA i).compliance.dollars = 0
    ∧ (computeA i).errors.dollars = 0
    ∧ (computeA i).recordKeepingDollars = 0
    ∧ (computeA i).complianceRiskDollars
        = (RISK_BANDS i.riskBand).mid * i.incidentProbPct / 100
    ∧ (computeA i).totalAnnualSavings = (computeA i).complianceRiskDollars
    ∧ ∀ r : ℚ,
        (computeA { i with hourlyRate := r }).currentAdminHours
            = (computeA i).currentAdminHours
        ∧ (computeA { i with hourlyRate := r }).hoursBackToTeam
            = (computeA i).hoursBackToTeam := by
  refine ⟨?_, ?_, ?_, ?_, ?_, ?_, ?_, ?_, ?_⟩ <;>
    simp [computeA, h]

/-- Witness for the C2 amended theorem at a concrete zero-rate input. -/
theorem hourlyRateZero_amended_witness :
    (computeA ⟨26, 8, 3, 0, 5.5, .medium, 8⟩).currentAdminCost = 0
    ∧ (computeA ⟨26, 8, 3, 0, 5.5, .medium, 8⟩).recordKeepingDollars = 0
    ∧ (computeA ⟨26, 8, 3, 0, 5.5, .medium, 8⟩).totalAnnualSavings
        = (computeA ⟨26, 8, 3, 0, 5.5, .medium, 8⟩).complianceRiskDollars :=
  ⟨(hourlyRateZero_amended ⟨26, 8, 3, 0, 5.5, .medium, 8⟩ rfl).1,
   (hourlyRateZero_amended ⟨26, 8, 3, 0, 5.5, .medium, 8⟩ rfl).2.2.2.2.2.1,
   (hourlyRateZero_amended ⟨26, 8, 3, 0, 5.5, .medium, 8⟩ rfl).2.2.2.2.2.2.2.1⟩

/-- C3 counterexample: with incidentProbPct = 200 (medium band) the engine
computes complianceRiskDollars = 40000, not the 20000 it would compute with
incidentProbPct clamped to 100 — the engine does not clamp. -/
theorem incidentProb_clamp_counterexample :
    (computeA ⟨26, 8, 3, 55, 5.5, .medium, 200⟩).complianceRiskDollars = 40000
    ∧ (computeA ⟨26, 8, 3, 55, 5.5, .medium, 100⟩).complianceRiskDollars = 20000
    ∧ (computeA ⟨26, 8, 3, 55, 5.5, .medium, 200⟩).complianceRiskDollars
        ≠ (computeA ⟨26, 8, 3, 55, 5.5, .medium, 100⟩).complianceRiskDollars := by
  refine ⟨?_, ?_, ?_⟩ <;> norm_num [computeA, RISK_BANDS]

/-- C3 amended: the engine never rejects out-of-range inputs (it is a total
function) but it does not clamp incidentProbPct either: in both variants the
compliance risk figure is the band midpoint × incidentProbPct / 100 for every
incidentProbPct, including values above 100, where it keeps growing linearly
instead of saturating. -/
theorem incidentProb_unclamped (i : InputsA) (j : InputsB) :
    (computeA i).complianceRiskDollars
        = (RISK_BANDS i.riskBand).mid * i.incidentProbPct / 100
    ∧ (computeB j).complianceRiskAvoidance
        = avgPenalty j.penaltyBand * j.incidentProb / 100 := by
  exact ⟨rfl, rfl⟩

/-- C4: for every errorRatePct ≥ 0, efficiencyPct equals
clamp(round(errorRatePct × 25), 0, 100) and lies in [0, 100], in variant A and
in variant C (values with errorRatePct × 25 above 100 are clamped, not
wrapped). -/
theorem efficiencyPct_band (i : InputsA) (j : InputsC)
    (hA : 0 ≤ i.errorRatePct) (hC : 0 ≤ j.errorRatePct) :
    (computeA i).efficiencyPct = max 0 (min 100 (jsRound (i.errorRatePct * 25)))
    ∧ 0 ≤ (computeA i).efficiencyPct
    ∧ (computeA i).efficiencyPct ≤ 100
    ∧ (computeC j).efficiencyPct = max 0 (min 100 (jsRound (j.errorRatePct * 25)))
    ∧ 0 ≤ (computeC j).efficiencyPct
    ∧ (computeC j).efficiencyPct ≤ 100 := by
  have hA0 : 0 ≤ jsRound (i.errorRatePct * 25) := by
    unfold jsRound
    refine Int.floor_nonneg.mpr ?_
    nlinarith
  have hC0 : 0 ≤ jsRound (j.errorRatePct * 25) := by
    unfold jsRound
    refine Int.floor_nonneg.mpr ?_
    nlinarith
  have eA : (computeA i).efficiencyPct = min 100 (jsRound (i.errorRatePct * 25)) := rfl
  have eC : (computeC j).efficiencyPct = min 100 (jsRound (j.errorRatePct * 25)) := rfl
  refine ⟨?_, ?_, ?_, ?_, ?_, ?_⟩ <;> simp only [eA, eC] <;> omega

/-- Witness for C4 at errorRatePct = 8 (8 × 25 = 200 is clamped to 100) and
errorRatePct = 3 (rounds to 75). -/
theorem efficiencyPct_band_witness :
    (computeA ⟨26, 8, 8, 55, 5.5, .medium, 8⟩).efficiencyPct
        = max 0 (min 100 (jsRound ((8 : ℚ) * 25)))
    ∧ 0 ≤ (computeA ⟨26, 8, 8, 55, 5.5, .medium, 8⟩).efficiencyPct
    ∧ (computeA ⟨26, 8, 8, 55, 5.5, .medium, 8⟩).efficiencyPct ≤ 100
    ∧ (computeC ⟨26, 8, 3, 55⟩).efficiencyPct = max 0 (min 100 (jsRound ((3 : ℚ) * 25)))
    ∧ 0 ≤ (computeC ⟨26, 8, 3, 55⟩).efficiencyPct
    ∧ (computeC ⟨26, 8, 3, 55⟩).efficiencyPct ≤ 100 :=
  efficiencyPct_band ⟨26, 8, 8, 55, 5.5, .medium, 8⟩ ⟨26, 8, 3, 55⟩
    (by norm_num) (by norm_num)

/-- C5 counterexample: no pair of segment-profile multipliers in which Council
weights compliance and record-keeping strictly higher than Enterprise (as the
spec's Segment Profile demands) can describe the engine, because switching the
segment tag does not change complianceRiskAvoidance at all: at the default
input it is 1600 for both segments. -/
theorem segment_ratio_counterexample :
    ¬ ∃ cfC cfE rfC rfE : ℚ,
        (1 ≤ cfE ∧ cfE < cfC ∧ 1 ≤ rfE ∧ rfE < rfC) ∧
        ∀ j : InputsB,
          (computeB { j with segment := .Council }).complianceRiskAvoidance
              = cfC / cfE
                  * (computeB { j with segment := .Enterprise }).complianceRiskAvoidance
          ∧ (computeB { j with segment := .Council }).recordSavings
              = rfC / rfE
                  * (computeB { j with segment := .Enterprise }).recordSavings := by
  rintro ⟨cfC, cfE, rfC, rfE, ⟨h1, h2, _, _⟩, hall⟩
  have h := (hall ⟨.Council, 26, 8, 3, 55, 5.5, .Medium, 8⟩).1
  have e1 : (computeB { (⟨.Council, 26, 8, 3, 55, 5.5, .Medium, 8⟩ : InputsB) with
      segment := .Council }).complianceRiskAvoidance = 1600 := by
    norm_num [computeB, avgPenalty, bandRange]
  have e2 : (computeB { (⟨.Council, 26, 8, 3, 55, 5.5, .Medium, 8⟩ : InputsB) with
      segment := .Enterprise }).complianceRiskAvoidance = 1600 := by
    norm_num [computeB, avgPenalty, bandRange]
  rw [e1, e2] at h
  have hcfE : (0 : ℚ) < cfE := by linarith
  have hcf : cfE = cfC := by
    field_simp at h
    linarith
  linarith

/-- C5 amended: switching the segment tag between Council and Enterprise
leaves both complianceRiskAvoidance and recordSavings exactly unchanged (the
engine has no complianceFactor or recordFactor multipliers; the segment only
affects the manual, compliance and error efficiency buckets). -/
theorem segment_invariance (j : InputsB) :
    (computeB { j with segment := .Council }).complianceRiskAvoidance
        = (computeB { j with segment := .Enterprise }).complianceRiskAvoidance
    ∧ (computeB { j with segment := .Council }).recordSavings
        = (computeB { j with segment := .Enterprise }).recordSavings :=
  ⟨rfl, rfl⟩

/-- C8: increasing hourlyRate while holding every other input fixed (all
inputs nonnegative) never decreases totalAnnualSavings, in variant A and in
variant C. -/
theorem totalAnnualSavings_mono_hourlyRate (i : InputsA) (j : InputsC) (r1 r2 : ℚ)
    (hp : 0 ≤ i.payCycles) (ha : 0 ≤ i.avgHoursPerCycle) (he : 0 ≤ i.errorRatePct)
    (hk : 0 ≤ i.recordKeepingEffPct)
    (hp2 : 0 ≤ j.payCycles) (ha2 : 0 ≤ j.avgHoursPerCycle) (he2 : 0 ≤ j.errorRatePct)
    (hr : r1 ≤ r2) :
    (computeA { i with hourlyRate := r1 }).totalAnnualSavings
        ≤ (computeA { i with hourlyRate := r2 }).totalAnnualSavings
    ∧ (computeC { j with hourlyRate := r1 }).totalAnnualSavings
        ≤ (computeC { j with hourlyRate := r2 }).totalAnnualSavings := by
  constructor
  · simp only [computeA]
    nlinarith [mul_nonneg (mul_nonneg (mul_nonneg hp ha) he) (sub_nonneg.mpr hr),
      mul_nonneg (mul_nonneg (mul_nonneg hp ha) hk) (sub_nonneg.mpr hr)]
  · simp only [computeC]
    nlinarith [mul_nonneg (mul_nonneg (mul_nonneg hp2 ha2) he2) (sub_nonneg.mpr hr)]

/-- Witness for C8: raising the hourly rate from 55 to 60 at the default
snapshot does not decrease totalAnnualSavings. -/
theorem totalAnnualSavings_mono_hourlyRate_witness :
    (computeA { (⟨26, 8, 3, 0, 5.5, .medium, 8⟩ : InputsA) with
        hourlyRate := 55 }).totalAnnualSavings
      ≤ (computeA { (⟨26, 8, 3, 0, 5.5, .medium, 8⟩ : InputsA) with
          hourlyRate := 60 }).totalAnnualSavings
    ∧ (computeC { (⟨26, 8, 3, 0⟩ : InputsC) with hourlyRate := 55 }).totalAnnualSavings
      ≤ (computeC { (⟨26, 8, 3, 0⟩ : InputsC) with hourlyRate := 60 }).totalAnnualSavings :=
  totalAnnualSavings_mono_hourlyRate ⟨26, 8, 3, 0, 5.5, .medium, 8⟩ ⟨26, 8, 3, 0⟩ 55 60
    (by norm_num) (by norm_num) (by norm_num) (by norm_num)
    (by norm_num) (by norm_num) (by norm_num) (by norm_num)

/-- C10: in the segment-weighted variant, totalAdminHours is the unguarded
quotient (manualSavings + complianceSavings + errorSavings) / hourlyRate: for
hourlyRate ≠ 0 it is a finite number q with q × hourlyRate equal to the sum of
the three buckets, and at hourlyRate = 0 the 0/0 division yields no
well-defined number at all. -/
theorem totalAdminHours_division (j : InputsB) :
    (j.hourlyRate ≠ 0 →
      (computeB j).totalAdminHours
          = some (((computeB j).manualSavings + (computeB j).complianceSavings
              + (computeB j).errorSavings) / j.hourlyRate)
      ∧ ∀ q : ℚ, (computeB j).totalAdminHours = some q →
          q * j.hourlyRate
            = (computeB j).manualSavings + (computeB j).complianceSavings
                + (computeB j).errorSavings)
    ∧ (j.hourlyRate = 0 → (computeB j).totalAdminHours = none) := by
  constructor
  · intro h
    have e : (computeB j).totalAdminHours
        = some (((computeB j).manualSavings + (computeB j).complianceSavings
            + (computeB j).errorSavings) / j.hourlyRate) := by
      simp [computeB, jsDiv, h]
    refine ⟨e, ?_⟩
    intro q hq
    rw [e, Option.some_inj] at hq
    rw [← hq]
    exact div_mul_cancel₀ _ h
  · intro h
    simp [computeB, jsDiv, h]

/-- Witness for C10 at hourlyRate = 55 (finite quotient) and hourlyRate = 0
(no finite value). -/
theorem totalAdminHours_division_witness :
    (computeB ⟨.Council, 26, 8, 3, 55, 5.5, .Medium, 8⟩).totalAdminHours
        = some (((computeB ⟨.Council, 26, 8, 3, 55, 5.5, .Medium, 8⟩).manualSavings
            + (computeB ⟨.Council, 26, 8, 3, 55, 5.5, .Medium, 8⟩).complianceSavings
            + (computeB ⟨.Council, 26, 8, 3, 55, 5.5, .Medium, 8⟩).errorSavings) / 55)
    ∧ (computeB ⟨.Council, 26, 8, 3, 0, 5.5, .Medium, 8⟩).totalAdminHours = none :=
  ⟨((totalAdminHours_division ⟨.Council, 26, 8, 3, 55, 5.5, .Medium, 8⟩).1
      (by norm_num)).1,
   (totalAdminHours_division ⟨.Council, 26, 8, 3, 0, 5.5, .Medium, 8⟩).2 rfl⟩

/-- C6: gauge round-trip: at percent = 0 the endpoint is the semicircle start
(cx − R, cy) = (10, 50); at percent = 100 it is the end point (cx + R, cy) =
(90, 50); at percent = 50 largeArcFlag = 0 and the endpoint is the apex
(cx, cy + R·sin(π/2)). -/
theorem gauge_round_trip :
    (Gauge 0).endX = 50 - 40 ∧ (Gauge 0).endY = 50
    ∧ (Gauge 100).endX = 50 + 40 ∧ (Gauge 100).endY = 50
    ∧ (Gauge 50).largeArcFlag = 0
    ∧ (Gauge 50).endX = 50 ∧ (Gauge 50).endY = 50 + 40 * Real.sin (Real.pi / 2) := by
  have h0 : gaugeClamped 0 = 0 := by
    unfold gaugeClamped
    norm_num
  have h100 : gaugeClamped 100 = 100 := by
    unfold gaugeClamped
    norm_num
  have h50 : gaugeClamped 50 = 50 := by
    unfold gaugeClamped
    norm_num
  have a0 : gaugeEndAngle 0 = Real.pi := by
    unfold gaugeEndAngle
    rw [h0]
    ring
  have a100 : gaugeEndAngle 100 = 0 := by
    unfold gaugeEndAngle
    rw [h100]
    ring
  have a50 : gaugeEndAngle 50 = Real.pi / 2 := by
    unfold gaugeEndAngle
    rw [h50]
    ring
  refine ⟨?_, ?_, ?_, ?_, ?_, ?_, ?_⟩ <;>
    norm_num [Gauge, a0, a100, a50, h50, Real.cos_pi, Real.sin_pi, Real.cos_zero,
      Real.sin_zero, Real.cos_pi_div_two, Real.sin_pi_div_two]

/-- C7: for every real input, the gauge clamps to [0,100] before computing the
angle, so the returned endpoint always lies on the semicircle of radius 40
around (50, 50), with the end angle in [0, π]. -/
theorem gauge_on_semicircle (value : ℝ) :
    ((Gauge value).endX - 50) ^ 2 + ((Gauge value).endY - 50) ^ 2 = 40 ^ 2
    ∧ 0 ≤ gaugeEndAngle value ∧ gaugeEndAngle value ≤ Real.pi := by
  have hlo : 0 ≤ gaugeClamped value := le_max_left 0 (min 100 value)
  have hhi : gaugeClamped value ≤ 100 :=
    max_le (by norm_num) (min_le_left 100 value)
  refine ⟨?_, ?_, ?_⟩
  · have hpyth := Real.sin_sq_add_cos_sq (gaugeEndAngle value)
    simp only [Gauge]
    ring_nf
    nlinarith [hpyth]
  · unfold gaugeEndAngle
    have h1 : gaugeClamped value / 100 ≤ 1 := by linarith
    nlinarith [Real.pi_pos, h1]
  · unfold gaugeEndAngle
    have h2 : 0 ≤ gaugeClamped value / 100 := by linarith
    nlinarith [Real.pi_pos, h2]

end Datapay
